import Mathlib

namespace MapHeight

/-!
Verification of the fvtt-map-height module core: a shallow embedding of the
coordinate mapper, the sparse height field, the viewport window and the token
elevation synchronizer, with theorems about the properties the module is
expected to satisfy.

Conventions of the embedding:
- JavaScript numbers holding grid indices, heights and pixel offsets are
  integers in the source paths modelled here; they are embedded as Lean Int.
- Continuous canvas positions (token pixel coordinates, pointer positions,
  camera transforms) are embedded as Lean Rat.
- A JavaScript Map keyed by the string "x,y" is embedded as an association
  list keyed by the integer pair (x, y); getGridKey builds that key from
  integer grid coordinates, on which Math.floor is the identity.
- Asynchronous persistence (Scene.setFlag inside saveHeightData) is embedded
  as a Boolean parameter persistOk giving the outcome of the write; the
  in-memory performance cache (gridCache) carries no observable state and is
  not modelled.
-/

/-! ## Coordinate mapper (height-overlay.js updateGridParameters,
     onGlobalPointerMove; same formulas in height-manager.js) -/

/-- Padding cells per side: Math.ceil ((dimension * padding) / gridSize),
from updateGridParameters in height-overlay.js (paddingGridsX / paddingGridsY)
and height-manager.js. -/
def paddingGrids (dimension : Int) (padding : Rat) (gridSize : Int) : Int :=
  ⌈((dimension : Rat) * padding) / (gridSize : Rat)⌉

/-- Grid geometry cached on the overlay and on the height manager:
this.gridSize, this.gridOffsetX, this.gridOffsetY. -/
structure GridParams where
  gridSize : Int
  gridOffsetX : Int
  gridOffsetY : Int
deriving Repr, DecidableEq

/-- updateGridParameters from height-overlay.js lines 83-109: offsets are the
padding cell counts converted back to pixels, so grid cell (0,0) is the scene
origin. -/
def updateGridParameters (sceneWidth sceneHeight : Int) (padding : Rat)
    (gridSize : Int) : GridParams :=
  { gridSize := gridSize
    gridOffsetX := paddingGrids sceneWidth padding gridSize * gridSize
    gridOffsetY := paddingGrids sceneHeight padding gridSize * gridSize }

/-- Pixel-to-cell conversion used by onGlobalPointerMove in height-overlay.js
lines 435-436: Math.floor ((world - offset) / gridSize) per axis. -/
def toCell (p : GridParams) (px py : Rat) : Int × Int :=
  (⌊(px - (p.gridOffsetX : Rat)) / (p.gridSize : Rat)⌋,
   ⌊(py - (p.gridOffsetY : Rat)) / (p.gridSize : Rat)⌋)

/-- Cell-to-pixel conversion: the top-left canvas pixel of a grid cell,
x * gridSize + gridOffsetX per axis (height-overlay.js positions cell
elements at this point plus half a cell, lines 275-276). -/
def toCellTopLeftPixel (p : GridParams) (x y : Int) : Int × Int :=
  (x * p.gridSize + p.gridOffsetX, y * p.gridSize + p.gridOffsetY)

/-! ## Height field (height-manager.js) -/

/-- Grid cell key: the source stores the string "floor(x),floor(y)"; on the
integer grid coordinates used throughout, Math.floor is the identity and the
key is embedded as the coordinate pair itself. -/
def getGridKey (gridX gridY : Int) : Int × Int :=
  (gridX, gridY)

/-- Lookup in the embedded Map (this.gridHeights.get(key)). -/
def mapGet : List ((Int × Int) × Int) → (Int × Int) → Option Int
  | [], _ => none
  | (k, v) :: rest, key => if k = key then some v else mapGet rest key

/-- Insert-or-replace in the embedded Map (this.gridHeights.set(key, v)). -/
def mapSet : List ((Int × Int) × Int) → (Int × Int) → Int → List ((Int × Int) × Int)
  | [], key, v => [(key, v)]
  | (k, w) :: rest, key, v =>
      if k = key then (key, v) :: rest else (k, w) :: mapSet rest key v

/-- In-memory state of HeightManager: gridHeights, exceptTokens, enabled. -/
structure HeightManager where
  gridHeights : List ((Int × Int) × Int)
  exceptTokens : List String
  enabled : Bool
deriving Repr, DecidableEq

/-- Events emitted through Hooks.callAll by the height manager. -/
inductive Event where
  | gridHeightChanged (gridX gridY height oldHeight : Int)
  | areaHeightChanged (gridPositions : List (Int × Int)) (height : Int)
  | dataImported
  | elevationUpdated (tokenId : String) (oldElevation newElevation : Int)
deriving Repr, DecidableEq

/-- validateGridCoordinates from height-manager.js lines 494-505; the
typeof/isFinite checks hold for every Int and the range checks remain. -/
def validateGridCoordinates (gridX gridY : Int) : Bool :=
  (-10000 ≤ gridX) && (gridX ≤ 10000) && (-10000 ≤ gridY) && (gridY ≤ 10000)

/-- validateHeight from height-manager.js lines 511-518; the typeof/isFinite
checks hold for every Int and the range checks remain. -/
def validateHeight (height : Int) : Bool :=
  (-1000 ≤ height) && (height ≤ 1000)

/-- getGridHeight: stored height or 0 (this.gridHeights.get(key) || 0). -/
def getGridHeight (m : HeightManager) (gridX gridY : Int) : Int :=
  (mapGet m.gridHeights (getGridKey gridX gridY)).getD 0

/-- isExceptionToken: this.exceptTokens.has(tokenId). -/
def isExceptionToken (m : HeightManager) (tokenId : String) : Bool :=
  m.exceptTokens.contains tokenId

/-- Result of a mutating height-manager call: the state left in memory, the
returned Boolean, the events fired, and how many saveHeightData calls were
made (to observe persist-once behaviour). -/
structure SetResult where
  state : HeightManager
  ret : Bool
  events : List Event
  persistCalls : Nat
deriving Repr, DecidableEq

/-- setGridHeight from height-manager.js lines 154-191. persistOk is the
outcome of the awaited saveHeightData call. -/
def setGridHeight (m : HeightManager) (gridX gridY height : Int)
    (persistOk : Bool) : SetResult :=
  if ¬ validateGridCoordinates gridX gridY then
    ⟨m, false, [], 0⟩
  else if ¬ validateHeight height then
    ⟨m, false, [], 0⟩
  else
    let key := getGridKey gridX gridY
    let oldHeight := (mapGet m.gridHeights key).getD 0
    if oldHeight = height then
      ⟨m, true, [], 0⟩
    else
      let m' := { m with gridHeights := mapSet m.gridHeights key height }
      ⟨m', persistOk,
        if persistOk then [Event.gridHeightChanged gridX gridY height oldHeight]
        else [],
        1⟩

/-- Loop body of setAreaHeights (height-manager.js lines 430-442): walk the
requested positions, write each coordinate-valid cell whose stored value
differs, and track whether any change was made. -/
def setAreaLoop (height : Int) :
    List (Int × Int) → HeightManager → Bool → HeightManager × Bool
  | [], m, changesMade => (m, changesMade)
  | c :: rest, m, changesMade =>
    if validateGridCoordinates c.1 c.2 then
      let key := getGridKey c.1 c.2
      let oldHeight := (mapGet m.gridHeights key).getD 0
      if oldHeight ≠ height then
        setAreaLoop height rest
          { m with gridHeights := mapSet m.gridHeights key height } true
      else
        setAreaLoop height rest m changesMade
    else
      setAreaLoop height rest m changesMade

/-- setAreaHeights from height-manager.js lines 423-453: empty input fails;
otherwise run the loop, and only when changes were made persist once and (on
persist success) emit one areaHeightChanged event. -/
def setAreaHeights (m : HeightManager) (gridPositions : List (Int × Int))
    (height : Int) (persistOk : Bool) : SetResult :=
  if gridPositions = [] then
    ⟨m, false, [], 0⟩
  else
    let r := setAreaLoop height gridPositions m false
    if r.2 then
      ⟨r.1, persistOk,
        if persistOk then [Event.areaHeightChanged gridPositions height] else [],
        1⟩
    else
      ⟨r.1, true, [], 0⟩

/-- Snapshot accepted by importData; a missing field leaves the matching part
of the state untouched, as the source's truthiness guards do. -/
structure ImportData where
  gridHeights : Option (List ((Int × Int) × Int))
  exceptTokens : Option (List String)
  enabled : Option Bool

/-- Import loop (height-manager.js lines 560-565): starting from the cleared
map, write only the entries whose height passes validateHeight. -/
def applyImportEntries :
    List ((Int × Int) × Int) → List ((Int × Int) × Int) → List ((Int × Int) × Int)
  | acc, [] => acc
  | acc, (key, height) :: rest =>
      applyImportEntries (if validateHeight height then mapSet acc key height else acc)
        rest

/-- importData from height-manager.js lines 557-592: replace each present
section of the snapshot (dropping invalid heights silently), persist once and
on success emit dataImported; the returned Boolean is the persist outcome. -/
def importData (m : HeightManager) (data : ImportData) (persistOk : Bool) :
    SetResult :=
  let m1 :=
    match data.gridHeights with
    | some entries => { m with gridHeights := applyImportEntries [] entries }
    | none => m
  let m2 :=
    match data.exceptTokens with
    | some tokens => { m1 with exceptTokens := tokens }
    | none => m1
  let m3 :=
    match data.enabled with
    | some e => { m2 with enabled := e }
    | none => m2
  ⟨m3, persistOk, if persistOk then [Event.dataImported] else [], 1⟩

/-- Empty height manager used by the concrete witnesses. -/
def sampleManager : HeightManager :=
  { gridHeights := [], exceptTokens := [], enabled := true }

/-! ## Token grid position (height-manager.js getTokenGridPosition) and the
     token automation of src/unnamed/part_005 -/

/-- Scene geometry as read by getTokenGridPosition and updateViewport: the
manager's cached gridSize/gridOffset plus the scene dimensions and padding
fraction read from canvas.scene. -/
structure SceneGeom where
  gridSize : Int
  gridOffsetX : Int
  gridOffsetY : Int
  sceneWidth : Int
  sceneHeight : Int
  padding : Rat
deriving Repr, DecidableEq

/-- Manual grid calculation of getTokenGridPosition (method 3, lines 244-247):
Math.floor ((tokenDoc.pos - gridOffset) / gridSize) per axis. -/
def manualGridCoords (g : SceneGeom) (tx ty : Rat) : Int × Int :=
  (⌊(tx - (g.gridOffsetX : Rat)) / (g.gridSize : Rat)⌋,
   ⌊(ty - (g.gridOffsetY : Rat)) / (g.gridSize : Rat)⌋)

/-- Agreement test used by the reconciliation logic:
Math.abs(a.i - b.i) <= 1 && Math.abs(a.j - b.j) <= 1. -/
def nearOne (a b : Int × Int) : Bool :=
  ((a.1 - b.1).natAbs ≤ 1) && ((a.2 - b.2).natAbs ≤ 1)

/-- Three-way reconciliation of getTokenGridPosition (lines 249-291) between
the optional host results (v12 getTopLeftPoint, legacy getOffset) and the
manual formula. -/
def chooseGridCoords (v12Result offsetResult : Option (Int × Int))
    (manual : Int × Int) : Int × Int :=
  match v12Result, offsetResult with
  | some v, some o =>
    if nearOne v manual && nearOne o manual then v
    else if nearOne v manual then v
    else if nearOne o manual then o
    else if nearOne o (manual.2, manual.1) then (o.2, o.1)
    else manual
  | some v, none =>
    if nearOne v manual then v else manual
  | none, some o =>
    if nearOne o manual then o
    else if nearOne o (manual.2, manual.1) then (o.2, o.1)
    else manual
  | none, none => manual

/-- Largest addressable column (getTokenGridPosition lines 300-310):
Math.ceil(totalWidth / gridSize) - 1 where totalWidth is the scene width plus
the two padding sides in pixels. -/
def maxGridX (g : SceneGeom) : Int :=
  ⌈(((g.sceneWidth + 2 * (paddingGrids g.sceneWidth g.padding g.gridSize * g.gridSize)) : Int) : Rat)
      / (g.gridSize : Rat)⌉ - 1

/-- Largest addressable row, symmetric to maxGridX. -/
def maxGridY (g : SceneGeom) : Int :=
  ⌈(((g.sceneHeight + 2 * (paddingGrids g.sceneHeight g.padding g.gridSize * g.gridSize)) : Int) : Rat)
      / (g.gridSize : Rat)⌉ - 1

/-- getTokenGridPosition from height-manager.js lines 197-329: reconcile the
three coordinate sources, then clamp negative indices to 0 and indices past
the padded extent to the maximum. The source guards each clamp with an if
(coordinate out of range), which is equivalent to the unconditional max/min
since they are the identity in range. -/
def getTokenGridPosition (g : SceneGeom) (v12Result offsetResult : Option (Int × Int))
    (tx ty : Rat) : Int × Int :=
  let manual := manualGridCoords g tx ty
  let gc := chooseGridCoords v12Result offsetResult manual
  let clamped := (max 0 gc.1, max 0 gc.2)
  (min clamped.1 (maxGridX g), min clamped.2 (maxGridY g))

/-- Active effect attributes read by hasFlyingStatus: label, name, the first
status id, and the icon path. -/
structure ActiveEffect where
  label : Option String
  name : Option String
  statusId : Option String
  icon : Option String
deriving Repr, DecidableEq

/-- Actor attributes read by hasFlyingStatus: active effects, the dnd5e fly
speed (system.attributes.movement.fly) and the custom flying flag
(system.attributes.flying). -/
structure Actor where
  effects : List ActiveEffect
  flySpeed : Option Rat
  flyingAttr : Option Bool
deriving Repr, DecidableEq

/-- Token document attributes read by the automation: id, settled pixel
position, footprint in cells, elevation and the owning actor. -/
structure TokenDoc where
  id : String
  x : Rat
  y : Rat
  width : Int
  height : Int
  elevation : Int
  actor : Option Actor
deriving Repr, DecidableEq

/-- JavaScript String.includes: substring containment. -/
def strIncludes (s sub : String) : Bool :=
  decide (sub.data <:+: s.data)

/-- JavaScript || on strings: the empty string is falsy. -/
def jsOr (a b : String) : String :=
  if a = "" then b else a

/-- Flying vocabulary of hasFlyingStatus (part_005 line 512). -/
def flyingStatuses : List String :=
  ["fly", "flying", "hover", "hovering", "levitate", "levitating"]

/-- One active effect indicates flying when its lowercased label (falling back
to name), status id or icon contains a word of the flying vocabulary
(part_005 lines 516-530). -/
def effectIndicatesFlying (e : ActiveEffect) : Bool :=
  let label := jsOr ((e.label.map String.toLower).getD "")
    ((e.name.map String.toLower).getD "")
  let statusId := (e.statusId.map String.toLower).getD ""
  let icon := (e.icon.map String.toLower).getD ""
  flyingStatuses.any (fun status =>
    strIncludes label status || strIncludes statusId status || strIncludes icon status)

/-- hasFlyingStatus from part_005 lines 505-549: no actor means not flying;
otherwise check active effects, then the dnd5e fly speed, then the custom
flying attribute, in that order. -/
def hasFlyingStatus (systemIsDnd5e : Bool) (t : TokenDoc) : Bool :=
  match t.actor with
  | none => false
  | some actor =>
    if actor.effects.any effectIndicatesFlying then true
    else if systemIsDnd5e &&
        (match actor.flySpeed with
          | some speed => decide (0 < speed)
          | none => false) then true
    else if actor.flyingAttr = some true then true
    else false

/-- shouldSkipToken from part_005 lines 480-492: the exception list is checked
first, the flying heuristic second. -/
def shouldSkipToken (m : HeightManager) (systemIsDnd5e : Bool) (t : TokenDoc) : Bool :=
  if isExceptionToken m t.id then true
  else if hasFlyingStatus systemIsDnd5e t then true
  else false

/-- getTokenGridCoverage from part_005 lines 439-457: the footprint cells
starting at the token's grid position; a zero width or height counts as 1
(the JavaScript width || 1). -/
def getTokenGridCoverage (g : SceneGeom) (v12Result offsetResult : Option (Int × Int))
    (t : TokenDoc) : List (Int × Int) :=
  let position := getTokenGridPosition g v12Result offsetResult t.x t.y
  let width := if t.width = 0 then 1 else t.width
  let height := if t.height = 0 then 1 else t.height
  (List.range width.toNat).flatMap (fun dx =>
    (List.range height.toNat).map (fun dy =>
      (position.1 + (dx : Int), position.2 + (dy : Int))))

/-- calculateMultiGridHeight from part_005 lines 463-474: 0 on an empty
coverage, otherwise Math.max over the covered cells' heights. -/
def calculateMultiGridHeight (m : HeightManager) (g : SceneGeom)
    (v12Result offsetResult : Option (Int × Int)) (t : TokenDoc) : Int :=
  match (getTokenGridCoverage g v12Result offsetResult t).map
      (fun pos => getGridHeight m pos.1 pos.2) with
  | [] => 0
  | h :: hs => hs.foldl max h

/-- updateTokenElevation from part_005 lines 271-331, the flush path: skip
exempt tokens; otherwise compute the multi-grid target height and, only when
it differs from the current elevation, write it and fire the
tokenElevationUpdated hook. The token position passed in is the authoritative
settled position (the source substitutes the stored final coordinates for the
animation position before this computation). Returns the written elevation
and the fired event, or none when nothing is written. -/
def updateTokenElevation (m : HeightManager) (g : SceneGeom) (systemIsDnd5e : Bool)
    (v12Result offsetResult : Option (Int × Int)) (t : TokenDoc) :
    Option (Int × Event) :=
  if shouldSkipToken m systemIsDnd5e t then none
  else
    let newHeight := calculateMultiGridHeight m g v12Result offsetResult t
    let currentHeight := t.elevation
    if currentHeight ≠ newHeight then
      some (newHeight, Event.elevationUpdated t.id currentHeight newHeight)
    else none

/-- updateAllTokens from part_005 lines 356-381: walk every token, skipping
exempt ones, and collect the elevation writes performed by
updateTokenElevation. -/
def updateAllTokens (m : HeightManager) (g : SceneGeom) (systemIsDnd5e : Bool)
    (v12Result offsetResult : Option (Int × Int)) :
    List TokenDoc → List (String × Int × Event)
  | [] => []
  | t :: rest =>
    if shouldSkipToken m systemIsDnd5e t then
      updateAllTokens m g systemIsDnd5e v12Result offsetResult rest
    else
      match updateTokenElevation m g systemIsDnd5e v12Result offsetResult t with
      | some (h, e) =>
          (t.id, h, e) :: updateAllTokens m g systemIsDnd5e v12Result offsetResult rest
      | none => updateAllTokens m g systemIsDnd5e v12Result offsetResult rest

/-- getTokensOnGrid from part_005 lines 337-350: the tokens whose grid
position is the given cell. -/
def getTokensOnGrid (g : SceneGeom) (v12Result offsetResult : Option (Int × Int))
    (tokens : List TokenDoc) (gridX gridY : Int) : List TokenDoc :=
  tokens.filter (fun t =>
    decide ((getTokenGridPosition g v12Result offsetResult t.x t.y).1 = gridX ∧
      (getTokenGridPosition g v12Result offsetResult t.x t.y).2 = gridY))

/-- Affected-token collection of onAreaHeightChanged (part_005 lines 206-216):
tokens on a changed cell that shouldSkipToken does not exempt. The source
stores them in a Set; the list model may repeat a token, which leaves
membership unchanged. -/
def areaAffectedTokens (m : HeightManager) (g : SceneGeom) (systemIsDnd5e : Bool)
    (v12Result offsetResult : Option (Int × Int)) (tokens : List TokenDoc)
    (gridPositions : List (Int × Int)) : List TokenDoc :=
  gridPositions.flatMap (fun pos =>
    (getTokensOnGrid g v12Result offsetResult tokens pos.1 pos.2).filter
      (fun t => ! shouldSkipToken m systemIsDnd5e t))

/-- Scene geometry used by the C5 witness: cell size 100, padding 1/4 on a
1000 x 1000 scene, so offsets are 300 pixels (3 padding cells per side). -/
def paddingSampleGeom : SceneGeom :=
  { gridSize := 100, gridOffsetX := 300, gridOffsetY := 300,
    sceneWidth := 1000, sceneHeight := 1000, padding := 1/4 }

/-- Height field used by the C1 witness: the four cells of a 2 x 2 footprint
hold heights 3, 7, 1, 7. -/
def maxSampleManager : HeightManager :=
  { gridHeights := [((0, 0), 3), ((1, 0), 7), ((0, 1), 1), ((1, 1), 7)],
    exceptTokens := [], enabled := true }

/-- Unpadded scene geometry used by the C1 witness. -/
def maxSampleGeom : SceneGeom :=
  { gridSize := 100, gridOffsetX := 0, gridOffsetY := 0,
    sceneWidth := 1000, sceneHeight := 1000, padding := 0 }

/-- Token used by the C1 witness: a 2 x 2 footprint at the scene origin. -/
def maxSampleToken : TokenDoc :=
  { id := "big", x := 0, y := 0, width := 2, height := 2, elevation := 0,
    actor := none }

/-- Manager used by the C9 witness: token id bird is exception-listed. -/
def exceptionSampleManager : HeightManager :=
  { gridHeights := [((0, 0), 5)], exceptTokens := ["bird"], enabled := true }

/-- Token used by the C9 witness: exception-listed and not flying. -/
def exceptionSampleToken : TokenDoc :=
  { id := "bird", x := 0, y := 0, width := 1, height := 1, elevation := 0,
    actor := some { effects := [], flySpeed := none, flyingAttr := some false } }

/-! ## Viewport window (height-overlay.js updateViewport, renderVisibleGrids) -/

/-- Viewport bounds in cell coordinates (this.viewportBounds). -/
structure ViewportBounds where
  left : Int
  top : Int
  right : Int
  bottom : Int
deriving Repr, DecidableEq

/-- updateViewport from height-overlay.js lines 155-211: project the screen
through the inverse camera transform with one cell of slack, convert to cell
coordinates, and clamp into the addressable range (padding ring included).
tx, ty and scale are the worldTransform translation and uniform scale;
screenW, screenH the renderer screen size. -/
def updateViewport (g : SceneGeom) (tx ty scale screenW screenH : Rat) :
    ViewportBounds :=
  let paddingGridsWidthPerSide := paddingGrids g.sceneWidth g.padding g.gridSize
  let paddingGridsHeightPerSide := paddingGrids g.sceneHeight g.padding g.gridSize
  let canvasViewportLeft := -tx / scale - (g.gridSize : Rat)
  let canvasViewportTop := -ty / scale - (g.gridSize : Rat)
  let canvasViewportRight := (-tx + screenW) / scale + (g.gridSize : Rat)
  let canvasViewportBottom := (-ty + screenH) / scale + (g.gridSize : Rat)
  let viewportLeft := ⌊(canvasViewportLeft - (g.gridOffsetX : Rat)) / (g.gridSize : Rat)⌋
  let viewportTop := ⌊(canvasViewportTop - (g.gridOffsetY : Rat)) / (g.gridSize : Rat)⌋
  let viewportRight := ⌈(canvasViewportRight - (g.gridOffsetX : Rat)) / (g.gridSize : Rat)⌉
  let viewportBottom := ⌈(canvasViewportBottom - (g.gridOffsetY : Rat)) / (g.gridSize : Rat)⌉
  let minGridX := -paddingGridsWidthPerSide
  let minGridY := -paddingGridsHeightPerSide
  let boundMaxGridX := ⌈(g.sceneWidth : Rat) / (g.gridSize : Rat)⌉ +
    paddingGridsWidthPerSide - 1
  let boundMaxGridY := ⌈(g.sceneHeight : Rat) / (g.gridSize : Rat)⌉ +
    paddingGridsHeightPerSide - 1
  { left := max minGridX viewportLeft
    top := max minGridY viewportTop
    right := min boundMaxGridX viewportRight
    bottom := min boundMaxGridY viewportBottom }

/-- Integer range a..b inclusive, empty when b < a: the iteration space of a
JavaScript for loop from a to b. -/
def intRange (a b : Int) : List Int :=
  (List.range (b + 1 - a).toNat).map (fun k => a + (k : Int))

/-- The cells visited by the nested render loop of renderVisibleGrids
(height-overlay.js lines 232-236). -/
def renderedCells (vb : ViewportBounds) : List (Int × Int) :=
  (intRange vb.left vb.right).flatMap (fun x =>
    (intRange vb.top vb.bottom).map (fun y => (x, y)))

/-- Helper: flooring an exactly divisible integer product recovers the factor. -/
theorem floor_cell_cancel (s o : Int) (hs : 0 < s) (x : Int) :
    ⌊((((x * s + o : Int) : Rat)) - (o : Rat)) / (s : Rat)⌋ = x := by
  have hs0 : (s : Rat) ≠ 0 := by
    exact_mod_cast hs.ne.symm
  have h1 : (((x * s + o : Int) : Rat)) - (o : Rat) = (x : Rat) * (s : Rat) := by
    push_cast
    ring
  rw [h1, mul_div_cancel_right₀ _ hs0, Int.floor_intCast]

/-! ## Map lemmas -/

/-- Reading the key just written returns the written value. -/
theorem mapGet_mapSet_same (m : List ((Int × Int) × Int)) (k : Int × Int) (v : Int) :
    mapGet (mapSet m k v) k = some v := by
  induction m with
  | nil => simp [mapSet, mapGet]
  | cons hd tl ih =>
    obtain ⟨k', v'⟩ := hd
    by_cases hk : k' = k
    · simp [mapSet, hk, mapGet]
    · simp [mapSet, hk, mapGet, ih]

/-- Writing one key leaves every other key unchanged. -/
theorem mapGet_mapSet_other (m : List ((Int × Int) × Int)) (k k' : Int × Int)
    (v : Int) (hne : k' ≠ k) : mapGet (mapSet m k v) k' = mapGet m k' := by
  induction m with
  | nil => simp [mapSet, mapGet, Ne.symm hne]
  | cons hd tl ih =>
    obtain ⟨k₀, v₀⟩ := hd
    by_cases hk : k₀ = k
    · subst hk
      simp [mapSet, mapGet, hne, Ne.symm hne]
    · simp [mapSet, hk, mapGet, ih]

/-- Equation lemma: setGridHeight on an unchanged value is a pure no-op. -/
theorem setGridHeight_of_eq (m : HeightManager) (x y h : Int) (persistOk : Bool)
    (hc : validateGridCoordinates x y = true) (hv : validateHeight h = true)
    (hold : getGridHeight m x y = h) :
    setGridHeight m x y h persistOk = ⟨m, true, [], 0⟩ := by
  have hold' : (mapGet m.gridHeights (getGridKey x y)).getD 0 = h := hold
  simp [setGridHeight, hc, hv, hold']

/-- Equation lemma: setGridHeight on a changed value writes the cell, makes
one persistence call and emits the event exactly when the persist succeeds. -/
theorem setGridHeight_of_ne (m : HeightManager) (x y h : Int) (persistOk : Bool)
    (hc : validateGridCoordinates x y = true) (hv : validateHeight h = true)
    (hold : getGridHeight m x y ≠ h) :
    setGridHeight m x y h persistOk =
      ⟨{ m with gridHeights := mapSet m.gridHeights (getGridKey x y) h },
        persistOk,
        if persistOk then [Event.gridHeightChanged x y h (getGridHeight m x y)]
        else [],
        1⟩ := by
  have hold' : ¬ ((mapGet m.gridHeights (getGridKey x y)).getD 0 = h) := hold
  simp [setGridHeight, hc, hv, hold', getGridHeight]

/-- Bound form of validateGridCoordinates. -/
theorem validateGridCoordinates_iff (x y : Int) :
    validateGridCoordinates x y = true ↔
      (-10000 ≤ x ∧ x ≤ 10000 ∧ -10000 ≤ y ∧ y ≤ 10000) := by
  simp [validateGridCoordinates, and_assoc]

/-- Bound form of validateHeight. -/
theorem validateHeight_iff (h : Int) :
    validateHeight h = true ↔ (-1000 ≤ h ∧ h ≤ 1000) := by
  simp [validateHeight]

/-- C3: with persistence succeeding, setGridHeight returns true exactly when
the height lies in [-1000, 1000] and both coordinates lie in [-10000, 10000];
when any bound is violated it returns false, mutates nothing and emits no
event. -/
theorem setGridHeight_succeeds_iff_bounds (m : HeightManager) (x y h : Int) :
    ((setGridHeight m x y h true).ret = true ↔
      (-1000 ≤ h ∧ h ≤ 1000 ∧ -10000 ≤ x ∧ x ≤ 10000 ∧ -10000 ≤ y ∧ y ≤ 10000)) ∧
    (¬ (-1000 ≤ h ∧ h ≤ 1000 ∧ -10000 ≤ x ∧ x ≤ 10000 ∧ -10000 ≤ y ∧ y ≤ 10000) →
      (setGridHeight m x y h true).state = m ∧
      (setGridHeight m x y h true).events = ([] : List Event)) := by
  by_cases hc : validateGridCoordinates x y = true
  · by_cases hv : validateHeight h = true
    · have hb : (-1000 ≤ h ∧ h ≤ 1000 ∧ -10000 ≤ x ∧ x ≤ 10000 ∧ -10000 ≤ y ∧ y ≤ 10000) := by
        obtain ⟨h1, h2⟩ := (validateHeight_iff h).mp hv
        obtain ⟨h3, h4, h5, h6⟩ := (validateGridCoordinates_iff x y).mp hc
        exact ⟨h1, h2, h3, h4, h5, h6⟩
      constructor
      · by_cases hold : (mapGet m.gridHeights (getGridKey x y)).getD 0 = h
        · simp [setGridHeight, hc, hv, hold, hb]
        · simp [setGridHeight, hc, hv, hold, hb]
      · intro hnb
        exact absurd hb hnb
    · have hnb : ¬ (-1000 ≤ h ∧ h ≤ 1000 ∧ -10000 ≤ x ∧ x ≤ 10000 ∧ -10000 ≤ y ∧ y ≤ 10000) := by
        intro hb
        exact hv ((validateHeight_iff h).mpr ⟨hb.1, hb.2.1⟩)
      constructor
      · simp [setGridHeight, hc, hv, hnb]
      · intro _
        constructor
        · simp [setGridHeight, hc, hv]
        · simp [setGridHeight, hc, hv]
  · have hnb : ¬ (-1000 ≤ h ∧ h ≤ 1000 ∧ -10000 ≤ x ∧ x ≤ 10000 ∧ -10000 ≤ y ∧ y ≤ 10000) := by
      intro hb
      exact hc ((validateGridCoordinates_iff x y).mpr ⟨hb.2.2.1, hb.2.2.2.1, hb.2.2.2.2.1, hb.2.2.2.2.2⟩)
    constructor
    · simp [setGridHeight, hc, hnb]
    · intro _
      constructor
      · simp [setGridHeight, hc]
      · simp [setGridHeight, hc]

/-- Witness for C3: a concrete out-of-range height (2000) on valid
coordinates is rejected without mutation or event, and the iff evaluates. -/
theorem setGridHeight_succeeds_iff_bounds_witness :
    (((setGridHeight sampleManager 0 0 2000 true).ret = true ↔
      (-1000 ≤ (2000 : Int) ∧ (2000 : Int) ≤ 1000 ∧ -10000 ≤ (0 : Int) ∧ (0 : Int) ≤ 10000 ∧
        -10000 ≤ (0 : Int) ∧ (0 : Int) ≤ 10000)) ∧
    (¬ (-1000 ≤ (2000 : Int) ∧ (2000 : Int) ≤ 1000 ∧ -10000 ≤ (0 : Int) ∧ (0 : Int) ≤ 10000 ∧
        -10000 ≤ (0 : Int) ∧ (0 : Int) ≤ 10000) →
      (setGridHeight sampleManager 0 0 2000 true).state = sampleManager ∧
      (setGridHeight sampleManager 0 0 2000 true).events = ([] : List Event))) :=
  setGridHeight_succeeds_iff_bounds sampleManager 0 0 2000

/-- C6: when the persistence write fails, the in-memory mutation of
setGridHeight is kept (the new height is readable through getGridHeight), the
call returns false, and no event is emitted; nothing is rolled back. -/
theorem setGridHeight_persistFail_keeps_mutation (m : HeightManager) (x y h : Int)
    (hc : validateGridCoordinates x y = true) (hv : validateHeight h = true)
    (hne : getGridHeight m x y ≠ h) :
    (setGridHeight m x y h false).ret = false ∧
    getGridHeight (setGridHeight m x y h false).state x y = h ∧
    (setGridHeight m x y h false).events = ([] : List Event) := by
  have hold : ¬ ((mapGet m.gridHeights (getGridKey x y)).getD 0 = h) := hne
  refine ⟨?_, ?_, ?_⟩
  · simp [setGridHeight, hc, hv, hold]
  · simp [setGridHeight, hc, hv, hold, getGridHeight, mapGet_mapSet_same]
  · simp [setGridHeight, hc, hv, hold]

/-- Witness for C6 at grid (1, 2) with height 5 over the empty manager. -/
theorem setGridHeight_persistFail_keeps_mutation_witness :
    validateGridCoordinates 1 2 = true ∧ validateHeight 5 = true ∧
    getGridHeight sampleManager 1 2 ≠ 5 ∧
    ((setGridHeight sampleManager 1 2 5 false).ret = false ∧
      getGridHeight (setGridHeight sampleManager 1 2 5 false).state 1 2 = 5 ∧
      (setGridHeight sampleManager 1 2 5 false).events = ([] : List Event)) :=
  ⟨by decide, by decide, by decide,
    setGridHeight_persistFail_keeps_mutation sampleManager 1 2 5 (by decide)
      (by decide) (by decide)⟩

/-- C8: calling setGridHeight twice with the same in-range height mutates and
emits the heightChanged event only on the first call; the second call returns
true with no mutation, no further persistence call and no event. -/
theorem setGridHeight_second_call_noop (m : HeightManager) (x y h : Int)
    (hc : validateGridCoordinates x y = true) (hv : validateHeight h = true)
    (hne : getGridHeight m x y ≠ h) :
    (setGridHeight m x y h true).ret = true ∧
    (setGridHeight m x y h true).events =
      [Event.gridHeightChanged x y h (getGridHeight m x y)] ∧
    (setGridHeight m x y h true).persistCalls = 1 ∧
    (setGridHeight (setGridHeight m x y h true).state x y h true).ret = true ∧
    (setGridHeight (setGridHeight m x y h true).state x y h true).state =
      (setGridHeight m x y h true).state ∧
    (setGridHeight (setGridHeight m x y h true).state x y h true).events =
      ([] : List Event) ∧
    (setGridHeight (setGridHeight m x y h true).state x y h true).persistCalls = 0 := by
  have hfirst := setGridHeight_of_ne m x y h true hc hv hne
  have hstate : (setGridHeight m x y h true).state =
      { m with gridHeights := mapSet m.gridHeights (getGridKey x y) h } := by
    rw [hfirst]
  have hsecondOld : getGridHeight (setGridHeight m x y h true).state x y = h := by
    rw [hstate]
    simp [getGridHeight, mapGet_mapSet_same]
  have hsecond := setGridHeight_of_eq (setGridHeight m x y h true).state x y h true
    hc hv hsecondOld
  refine ⟨?_, ?_, ?_, ?_, ?_, ?_, ?_⟩
  · rw [hfirst]
  · rw [hfirst]
    simp
  · rw [hfirst]
  · rw [hsecond]
  · rw [hsecond]
  · rw [hsecond]
  · rw [hsecond]

/-- Witness for C8 at grid (3, 4) with height 7 over the empty manager. -/
theorem setGridHeight_second_call_noop_witness :
    validateGridCoordinates 3 4 = true ∧ validateHeight 7 = true ∧
    getGridHeight sampleManager 3 4 ≠ 7 ∧
    ((setGridHeight sampleManager 3 4 7 true).ret = true ∧
      (setGridHeight sampleManager 3 4 7 true).events =
        [Event.gridHeightChanged 3 4 7 (getGridHeight sampleManager 3 4)] ∧
      (setGridHeight sampleManager 3 4 7 true).persistCalls = 1 ∧
      (setGridHeight (setGridHeight sampleManager 3 4 7 true).state 3 4 7 true).ret = true ∧
      (setGridHeight (setGridHeight sampleManager 3 4 7 true).state 3 4 7 true).state =
        (setGridHeight sampleManager 3 4 7 true).state ∧
      (setGridHeight (setGridHeight sampleManager 3 4 7 true).state 3 4 7 true).events =
        ([] : List Event) ∧
      (setGridHeight (setGridHeight sampleManager 3 4 7 true).state 3 4 7 true).persistCalls = 0) :=
  ⟨by decide, by decide, by decide,
    setGridHeight_second_call_noop sampleManager 3 4 7 (by decide) (by decide)
      (by decide)⟩

/-! ## Area write and import lemmas -/

/-- A cell already holding the brush height keeps it through the area loop. -/
theorem setAreaLoop_preserves (height : Int) (cells : List (Int × Int)) :
    ∀ (m : HeightManager) (changed : Bool) (a b : Int),
      getGridHeight m a b = height →
      getGridHeight (setAreaLoop height cells m changed).1 a b = height := by
  induction cells with
  | nil =>
    intro m changed a b hab
    simpa [setAreaLoop] using hab
  | cons c rest ih =>
    intro m changed a b hab
    by_cases hc : validateGridCoordinates c.1 c.2 = true
    · by_cases hne : (mapGet m.gridHeights (getGridKey c.1 c.2)).getD 0 = height
      · simpa [setAreaLoop, hc, hne] using ih m changed a b hab
      · have hab' : getGridHeight
            { m with gridHeights := mapSet m.gridHeights (getGridKey c.1 c.2) height }
            a b = height := by
          by_cases hk : getGridKey a b = getGridKey c.1 c.2
          · simp [getGridHeight, hk, mapGet_mapSet_same]
          · simpa [getGridHeight, mapGet_mapSet_other _ _ _ _ hk] using hab
        simpa [setAreaLoop, hc, hne] using ih _ true a b hab'
    · simpa [setAreaLoop, hc] using ih m changed a b hab

/-- Every coordinate-valid requested cell holds the brush height after the
area loop. -/
theorem setAreaLoop_writes (height : Int) (cells : List (Int × Int)) :
    ∀ (m : HeightManager) (changed : Bool) (c : Int × Int), c ∈ cells →
      validateGridCoordinates c.1 c.2 = true →
      getGridHeight (setAreaLoop height cells m changed).1 c.1 c.2 = height := by
  induction cells with
  | nil =>
    intro m changed c hmem
    exact absurd hmem (List.not_mem_nil c)
  | cons c₀ rest ih =>
    intro m changed c hmem hcv
    rcases List.mem_cons.mp hmem with hhd | htl
    · subst hhd
      by_cases hne : (mapGet m.gridHeights (getGridKey c.1 c.2)).getD 0 = height
      · have : getGridHeight m c.1 c.2 = height := hne
        simpa [setAreaLoop, hcv, hne] using
          setAreaLoop_preserves height rest m changed c.1 c.2 this
      · have hset : getGridHeight
            { m with gridHeights := mapSet m.gridHeights (getGridKey c.1 c.2) height }
            c.1 c.2 = height := by
          simp [getGridHeight, mapGet_mapSet_same]
        simpa [setAreaLoop, hcv, hne] using
          setAreaLoop_preserves height rest _ true c.1 c.2 hset
    · by_cases hc : validateGridCoordinates c₀.1 c₀.2 = true
      · by_cases hne : (mapGet m.gridHeights (getGridKey c₀.1 c₀.2)).getD 0 = height
        · simpa [setAreaLoop, hc, hne] using ih m changed c htl hcv
        · simpa [setAreaLoop, hc, hne] using ih _ true c htl hcv
      · simpa [setAreaLoop, hc] using ih m changed c htl hcv

/-- The changes-made flag of the area loop never resets. -/
theorem setAreaLoop_flag_mono (height : Int) (cells : List (Int × Int)) :
    ∀ (m : HeightManager), (setAreaLoop height cells m true).2 = true := by
  induction cells with
  | nil =>
    intro m
    simp [setAreaLoop]
  | cons c₀ rest ih =>
    intro m
    by_cases hc : validateGridCoordinates c₀.1 c₀.2 = true
    · by_cases hne : (mapGet m.gridHeights (getGridKey c₀.1 c₀.2)).getD 0 = height
      · simpa [setAreaLoop, hc, hne] using ih m
      · simpa [setAreaLoop, hc, hne] using ih _
    · simpa [setAreaLoop, hc] using ih m

/-- If some requested cell is coordinate-valid and differs from the brush
height, the area loop reports a change. -/
theorem setAreaLoop_flag_of_change (height : Int) (cells : List (Int × Int)) :
    ∀ (m : HeightManager) (changed : Bool),
      (∃ c ∈ cells, validateGridCoordinates c.1 c.2 = true ∧
        getGridHeight m c.1 c.2 ≠ height) →
      (setAreaLoop height cells m changed).2 = true := by
  induction cells with
  | nil =>
    intro m changed hx
    obtain ⟨c, hmem, -⟩ := hx
    exact absurd hmem (List.not_mem_nil c)
  | cons c₀ rest ih =>
    intro m changed hx
    by_cases hc : validateGridCoordinates c₀.1 c₀.2 = true
    · by_cases hne : (mapGet m.gridHeights (getGridKey c₀.1 c₀.2)).getD 0 = height
      · have hx' : ∃ c ∈ rest, validateGridCoordinates c.1 c.2 = true ∧
            getGridHeight m c.1 c.2 ≠ height := by
          obtain ⟨c, hmem, hcv, hch⟩ := hx
          rcases List.mem_cons.mp hmem with hhd | htl
          · subst hhd
            exact absurd hne hch
          · exact ⟨c, htl, hcv, hch⟩
        simpa [setAreaLoop, hc, hne] using ih m changed hx'
      · simpa [setAreaLoop, hc, hne] using setAreaLoop_flag_mono height rest _
    · have hx' : ∃ c ∈ rest, validateGridCoordinates c.1 c.2 = true ∧
          getGridHeight m c.1 c.2 ≠ height := by
        obtain ⟨c, hmem, hcv, hch⟩ := hx
        rcases List.mem_cons.mp hmem with hhd | htl
        · subst hhd
          exact absurd hcv hc
        · exact ⟨c, htl, hcv, hch⟩
      simpa [setAreaLoop, hc] using ih m changed hx'

/-- Keys outside the imported entries stay as in the accumulator. -/
theorem applyImportEntries_notmem (entries : List ((Int × Int) × Int)) :
    ∀ (acc : List ((Int × Int) × Int)) (k : Int × Int),
      k ∉ entries.map Prod.fst →
      mapGet (applyImportEntries acc entries) k = mapGet acc k := by
  induction entries with
  | nil =>
    intro acc k _
    simp [applyImportEntries]
  | cons e rest ih =>
    intro acc k hk
    obtain ⟨ke, ve⟩ := e
    have hk₀ : k ≠ ke := by
      intro hkk
      exact hk (by simp [hkk])
    have hkrest : k ∉ rest.map Prod.fst := by
      intro hmem
      exact hk (by simp [hmem])
    by_cases hval : validateHeight ve = true
    · rw [show applyImportEntries acc ((ke, ve) :: rest) =
          applyImportEntries (mapSet acc ke ve) rest by simp [applyImportEntries, hval]]
      rw [ih _ k hkrest, mapGet_mapSet_other _ _ _ _ hk₀]
    · rw [show applyImportEntries acc ((ke, ve) :: rest) =
          applyImportEntries acc rest by simp [applyImportEntries, hval]]
      exact ih _ k hkrest

/-- With distinct keys, an imported entry is readable afterwards exactly when
its height passed validation; an invalid entry leaves the accumulator value. -/
theorem applyImportEntries_mem (entries : List ((Int × Int) × Int)) :
    ∀ (acc : List ((Int × Int) × Int)) (k : Int × Int) (v : Int),
      (entries.map Prod.fst).Nodup → (k, v) ∈ entries →
      mapGet (applyImportEntries acc entries) k =
        (if validateHeight v then some v else mapGet acc k) := by
  induction entries with
  | nil =>
    intro acc k v _ hmem
    exact absurd hmem (List.not_mem_nil (k, v))
  | cons e rest ih =>
    intro acc k v hnodup hmem
    obtain ⟨ke, ve⟩ := e
    have hnodup' : (rest.map Prod.fst).Nodup := (List.nodup_cons.mp hnodup).2
    have hkeNotRest : ke ∉ rest.map Prod.fst := (List.nodup_cons.mp hnodup).1
    rcases List.mem_cons.mp hmem with hhd | htl
    · have hke : k = ke := congrArg Prod.fst hhd
      have hve : v = ve := congrArg Prod.snd hhd
      subst hke
      subst hve
      have hkNotRest : k ∉ rest.map Prod.fst := hkeNotRest
      by_cases hval : validateHeight v = true
      · rw [show applyImportEntries acc ((k, v) :: rest) =
            applyImportEntries (mapSet acc k v) rest by simp [applyImportEntries, hval]]
        rw [applyImportEntries_notmem rest _ k hkNotRest, mapGet_mapSet_same]
        simp [hval]
      · rw [show applyImportEntries acc ((k, v) :: rest) =
            applyImportEntries acc rest by simp [applyImportEntries, hval]]
        rw [applyImportEntries_notmem rest _ k hkNotRest]
        simp [hval]
    · have hkne : k ≠ ke := by
        intro hkk
        subst hkk
        exact hkeNotRest (by simpa using List.mem_map_of_mem Prod.fst htl)
      by_cases hval : validateHeight ve = true
      · rw [show applyImportEntries acc ((ke, ve) :: rest) =
            applyImportEntries (mapSet acc ke ve) rest by simp [applyImportEntries, hval]]
        rw [ih _ k v hnodup' htl, mapGet_mapSet_other _ _ _ _ hkne]
      · rw [show applyImportEntries acc ((ke, ve) :: rest) =
            applyImportEntries acc rest by simp [applyImportEntries, hval]]
        exact ih _ k v hnodup' htl

/-- C4 counterexample: setAreaHeights does not apply setGridHeight's height
validation: the out-of-range height 5000 (validateHeight is false on it) is
written to cell (0,0) and the call reports success, where the claimed
per-cell set semantics would refuse it with no mutation. -/
theorem setAreaHeights_accepts_out_of_range_height :
    validateHeight 5000 = false ∧
    (setAreaHeights sampleManager [(0, 0)] 5000 true).ret = true ∧
    getGridHeight (setAreaHeights sampleManager [(0, 0)] 5000 true).state 0 0 = 5000 := by
  decide

/-- C4 amended: setAreaHeights validates coordinates per cell but not the
height; as one logical batch, when at least one coordinate-valid cell differs
from the brush height it persists exactly once, emits exactly one
areaHeightChanged event covering the requested cells, returns true, and
afterwards every coordinate-valid requested cell reads the new height. -/
theorem setAreaHeights_batch_semantics (m : HeightManager)
    (cells : List (Int × Int)) (height : Int)
    (hchange : ∃ c ∈ cells, validateGridCoordinates c.1 c.2 = true ∧
      getGridHeight m c.1 c.2 ≠ height) :
    (setAreaHeights m cells height true).ret = true ∧
    (setAreaHeights m cells height true).persistCalls = 1 ∧
    (setAreaHeights m cells height true).events =
      [Event.areaHeightChanged cells height] ∧
    ∀ c ∈ cells, validateGridCoordinates c.1 c.2 = true →
      getGridHeight (setAreaHeights m cells height true).state c.1 c.2 = height := by
  have hne : cells ≠ [] := by
    obtain ⟨c, hmem, -⟩ := hchange
    intro hnil
    rw [hnil] at hmem
    exact List.not_mem_nil c hmem
  have hflag : (setAreaLoop height cells m false).2 = true :=
    setAreaLoop_flag_of_change height cells m false hchange
  refine ⟨?_, ?_, ?_, ?_⟩
  · simp [setAreaHeights, hne, hflag]
  · simp [setAreaHeights, hne, hflag]
  · simp [setAreaHeights, hne, hflag]
  · intro c hmem hcv
    have hw := setAreaLoop_writes height cells m false c hmem hcv
    simpa [setAreaHeights, hne, hflag] using hw

/-- Witness for C4 amended, the spec scenario: setAreaHeights over the empty
field on cells (0,0) and (1,0) with height 10 emits one areaHeightChanged
event covering both cells and both cells read 10 afterwards. -/
theorem setAreaHeights_batch_semantics_witness :
    (∃ c ∈ [((0 : Int), (0 : Int)), (1, 0)],
      validateGridCoordinates c.1 c.2 = true ∧
      getGridHeight sampleManager c.1 c.2 ≠ 10) ∧
    ((setAreaHeights sampleManager [(0, 0), (1, 0)] 10 true).ret = true ∧
      (setAreaHeights sampleManager [(0, 0), (1, 0)] 10 true).persistCalls = 1 ∧
      (setAreaHeights sampleManager [(0, 0), (1, 0)] 10 true).events =
        [Event.areaHeightChanged [(0, 0), (1, 0)] 10] ∧
      ∀ c ∈ [((0 : Int), (0 : Int)), (1, 0)], validateGridCoordinates c.1 c.2 = true →
        getGridHeight (setAreaHeights sampleManager [(0, 0), (1, 0)] 10 true).state
          c.1 c.2 = 10) :=
  ⟨by decide,
    setAreaHeights_batch_semantics sampleManager [(0, 0), (1, 0)] 10 (by decide)⟩

/-- C7: importData replaces the height map with exactly the entries whose
height passes validateHeight — invalid entries are silently dropped, keys not
in the snapshot are cleared — and with the persistence write succeeding it
reports overall success and emits dataImported. -/
theorem importData_drops_invalid_applies_valid (m : HeightManager)
    (entries : List ((Int × Int) × Int))
    (hnodup : (entries.map Prod.fst).Nodup) :
    (importData m ⟨some entries, none, none⟩ true).ret = true ∧
    (importData m ⟨some entries, none, none⟩ true).events = [Event.dataImported] ∧
    (∀ k v, (k, v) ∈ entries →
      mapGet (importData m ⟨some entries, none, none⟩ true).state.gridHeights k =
        (if validateHeight v then some v else none)) ∧
    (∀ k, k ∉ entries.map Prod.fst →
      mapGet (importData m ⟨some entries, none, none⟩ true).state.gridHeights k =
        none) := by
  refine ⟨rfl, rfl, ?_, ?_⟩
  · intro k v hmem
    have h := applyImportEntries_mem entries [] k v hnodup hmem
    simpa [importData, mapGet] using h
  · intro k hk
    have h := applyImportEntries_notmem entries [] k hk
    simpa [importData, mapGet] using h

/-- Witness for C7, the spec scenario: a snapshot holding height 5000 for one
cell and 20 for another applies only the 20 entry and still succeeds. -/
theorem importData_drops_invalid_applies_valid_witness :
    (([(((0 : Int), (0 : Int)), (5000 : Int)), ((1, 0), 20)].map Prod.fst)).Nodup ∧
    ((importData sampleManager ⟨some [((0, 0), 5000), ((1, 0), 20)], none, none⟩ true).ret
        = true ∧
      (importData sampleManager ⟨some [((0, 0), 5000), ((1, 0), 20)], none, none⟩
          true).events = [Event.dataImported] ∧
      (∀ k v, (k, v) ∈ [(((0 : Int), (0 : Int)), (5000 : Int)), ((1, 0), 20)] →
        mapGet (importData sampleManager
            ⟨some [((0, 0), 5000), ((1, 0), 20)], none, none⟩ true).state.gridHeights k =
          (if validateHeight v then some v else none)) ∧
      (∀ k, k ∉ [(((0 : Int), (0 : Int)), (5000 : Int)), ((1, 0), 20)].map Prod.fst →
        mapGet (importData sampleManager
            ⟨some [((0, 0), 5000), ((1, 0), 20)], none, none⟩ true).state.gridHeights k =
          none)) :=
  ⟨by decide,
    importData_drops_invalid_applies_valid sampleManager
      [((0, 0), 5000), ((1, 0), 20)] (by decide)⟩

/-! ## Clamping, maximum and exemption lemmas -/

/-- The padding cell count is nonnegative for a nonnegative padding fraction. -/
theorem paddingGrids_nonneg (dimension : Int) (padding : Rat) (gridSize : Int)
    (hd : 0 ≤ dimension) (hp : 0 ≤ padding) (hs : 0 < gridSize) :
    0 ≤ paddingGrids dimension padding gridSize := by
  apply Int.ceil_nonneg
  apply div_nonneg
  · exact mul_nonneg (by exact_mod_cast hd) hp
  · exact_mod_cast hs.le

/-- The largest addressable column is nonnegative on a real scene. -/
theorem maxGridX_nonneg (g : SceneGeom) (hgs : 0 < g.gridSize)
    (hw : 0 < g.sceneWidth) (hp : 0 ≤ g.padding) : 0 ≤ maxGridX g := by
  have hpw : 0 ≤ paddingGrids g.sceneWidth g.padding g.gridSize :=
    paddingGrids_nonneg g.sceneWidth g.padding g.gridSize hw.le hp hgs
  have htotal : (0 : Int) <
      g.sceneWidth + 2 * (paddingGrids g.sceneWidth g.padding g.gridSize * g.gridSize) := by
    have : (0 : Int) ≤ paddingGrids g.sceneWidth g.padding g.gridSize * g.gridSize :=
      mul_nonneg hpw hgs.le
    omega
  have hceil : 0 < ⌈(((g.sceneWidth + 2 * (paddingGrids g.sceneWidth g.padding g.gridSize * g.gridSize)) : Int) : Rat)
      / (g.gridSize : Rat)⌉ := by
    rw [Int.ceil_pos]
    apply div_pos
    · exact_mod_cast htotal
    · exact_mod_cast hgs
  unfold maxGridX
  omega

/-- The largest addressable row is nonnegative on a real scene. -/
theorem maxGridY_nonneg (g : SceneGeom) (hgs : 0 < g.gridSize)
    (hh : 0 < g.sceneHeight) (hp : 0 ≤ g.padding) : 0 ≤ maxGridY g := by
  have hpw : 0 ≤ paddingGrids g.sceneHeight g.padding g.gridSize :=
    paddingGrids_nonneg g.sceneHeight g.padding g.gridSize hh.le hp hgs
  have htotal : (0 : Int) <
      g.sceneHeight + 2 * (paddingGrids g.sceneHeight g.padding g.gridSize * g.gridSize) := by
    have : (0 : Int) ≤ paddingGrids g.sceneHeight g.padding g.gridSize * g.gridSize :=
      mul_nonneg hpw hgs.le
    omega
  have hceil : 0 < ⌈(((g.sceneHeight + 2 * (paddingGrids g.sceneHeight g.padding g.gridSize * g.gridSize)) : Int) : Rat)
      / (g.gridSize : Rat)⌉ := by
    rw [Int.ceil_pos]
    apply div_pos
    · exact_mod_cast htotal
    · exact_mod_cast hgs
  unfold maxGridY
  omega

/-- A fold of max is at least its starting value. -/
theorem le_foldl_max_init (l : List Int) : ∀ (a : Int), a ≤ l.foldl max a := by
  induction l with
  | nil =>
    intro a
    simp
  | cons c rest ih =>
    intro a
    rw [List.foldl_cons]
    exact le_trans (le_max_left a c) (ih (max a c))

/-- A fold of max dominates every list element. -/
theorem mem_le_foldl_max (l : List Int) : ∀ (a : Int), ∀ b ∈ l, b ≤ l.foldl max a := by
  induction l with
  | nil =>
    intro a b hb
    exact absurd hb (List.not_mem_nil b)
  | cons c rest ih =>
    intro a b hb
    rw [List.foldl_cons]
    rcases List.mem_cons.mp hb with hhd | htl
    · subst hhd
      exact le_trans (le_max_right a b) (le_foldl_max_init rest (max a b))
    · exact ih (max a c) b htl

/-- A fold of max returns its starting value or a list element. -/
theorem foldl_max_init_or_mem (l : List Int) :
    ∀ (a : Int), l.foldl max a = a ∨ l.foldl max a ∈ l := by
  induction l with
  | nil =>
    intro a
    left
    simp
  | cons c rest ih =>
    intro a
    rw [List.foldl_cons]
    rcases ih (max a c) with h | h
    · rcases max_choice a c with h1 | h1
      · left
        rw [h, h1]
      · right
        rw [h, h1]
        exact List.mem_cons_self c rest
    · right
      exact List.mem_cons_of_mem c h

/-- A token the skip check lets through is not in the exception list. -/
theorem shouldSkipToken_false_not_exception (m : HeightManager)
    (systemIsDnd5e : Bool) (t : TokenDoc)
    (h : shouldSkipToken m systemIsDnd5e t = false) :
    isExceptionToken m t.id = false := by
  by_cases he : isExceptionToken m t.id = true
  · rw [shouldSkipToken, if_pos he] at h
    exact absurd h (by simp)
  · exact Bool.not_eq_true _ ▸ (Bool.eq_false_iff.mpr he)

/-- No entry produced by updateAllTokens names an exception-listed token. -/
theorem updateAllTokens_no_exception (m : HeightManager) (g : SceneGeom)
    (systemIsDnd5e : Bool) (v12Result offsetResult : Option (Int × Int)) :
    ∀ (tokens : List TokenDoc),
      ∀ u ∈ updateAllTokens m g systemIsDnd5e v12Result offsetResult tokens,
        isExceptionToken m u.1 = false := by
  intro tokens
  induction tokens with
  | nil =>
    intro u hu
    simp [updateAllTokens] at hu
  | cons t₀ rest ih =>
    intro u hu
    by_cases hskip : shouldSkipToken m systemIsDnd5e t₀ = true
    · rw [updateAllTokens, if_pos hskip] at hu
      exact ih u hu
    · have hsf : shouldSkipToken m systemIsDnd5e t₀ = false :=
        Bool.eq_false_iff.mpr hskip
      rw [updateAllTokens, if_neg hskip] at hu
      cases hup : updateTokenElevation m g systemIsDnd5e v12Result offsetResult t₀ with
      | none =>
        rw [hup] at hu
        exact ih u hu
      | some p =>
        rw [hup] at hu
        rcases List.mem_cons.mp hu with hhd | htl
        · subst hhd
          exact shouldSkipToken_false_not_exception m systemIsDnd5e t₀ hsf
        · exact ih u htl

/-- No token collected for an area update is exception-listed. -/
theorem areaAffectedTokens_no_exception (m : HeightManager) (g : SceneGeom)
    (systemIsDnd5e : Bool) (v12Result offsetResult : Option (Int × Int))
    (tokens : List TokenDoc) (gridPositions : List (Int × Int)) :
    ∀ u ∈ areaAffectedTokens m g systemIsDnd5e v12Result offsetResult tokens
        gridPositions,
      isExceptionToken m u.id = false := by
  intro u hu
  rw [areaAffectedTokens] at hu
  obtain ⟨pos, hpos, hu'⟩ := List.mem_flatMap.mp hu
  have hfil := (List.mem_filter.mp hu').2
  have hsf : shouldSkipToken m systemIsDnd5e u = false := by
    simpa using hfil
  exact shouldSkipToken_false_not_exception m systemIsDnd5e u hsf

/-- C5: getTokenGridPosition always lands inside the clamped addressable
range: never a negative cell index, never past the padded extent; and a
token whose pixel position puts the manual formula in the negative padding
region resolves to index 0 on that axis (taking the authoritative manual
path, without host grid API results). -/
theorem getTokenGridPosition_clamped (g : SceneGeom)
    (v12Result offsetResult : Option (Int × Int)) (tx ty : Rat)
    (hgs : 0 < g.gridSize) (hw : 0 < g.sceneWidth) (hh : 0 < g.sceneHeight)
    (hp : 0 ≤ g.padding) :
    (0 ≤ (getTokenGridPosition g v12Result offsetResult tx ty).1 ∧
      0 ≤ (getTokenGridPosition g v12Result offsetResult tx ty).2 ∧
      (getTokenGridPosition g v12Result offsetResult tx ty).1 ≤ maxGridX g ∧
      (getTokenGridPosition g v12Result offsetResult tx ty).2 ≤ maxGridY g) ∧
    ((manualGridCoords g tx ty).1 < 0 →
      (getTokenGridPosition g none none tx ty).1 = 0) ∧
    ((manualGridCoords g tx ty).2 < 0 →
      (getTokenGridPosition g none none tx ty).2 = 0) := by
  have hmx := maxGridX_nonneg g hgs hw hp
  have hmy := maxGridY_nonneg g hgs hh hp
  refine ⟨⟨?_, ?_, ?_, ?_⟩, ?_, ?_⟩
  · rw [getTokenGridPosition]
    exact le_min (le_max_left 0 _) hmx
  · rw [getTokenGridPosition]
    exact le_min (le_max_left 0 _) hmy
  · rw [getTokenGridPosition]
    exact min_le_right _ _
  · rw [getTokenGridPosition]
    exact min_le_right _ _
  · intro hneg
    rw [getTokenGridPosition]
    show min (max 0 (chooseGridCoords none none (manualGridCoords g tx ty)).1) (maxGridX g) = 0
    rw [show chooseGridCoords none none (manualGridCoords g tx ty) =
        manualGridCoords g tx ty from rfl]
    rw [max_eq_left hneg.le, min_eq_left hmx]
  · intro hneg
    rw [getTokenGridPosition]
    show min (max 0 (chooseGridCoords none none (manualGridCoords g tx ty)).2) (maxGridY g) = 0
    rw [show chooseGridCoords none none (manualGridCoords g tx ty) =
        manualGridCoords g tx ty from rfl]
    rw [max_eq_left hneg.le, min_eq_left hmy]

/-- Witness for C5: a token at canvas pixel (0, 0) sits in the padding region
(manual cell (-3, -3)) and resolves to the clamped cell (0, 0). -/
theorem getTokenGridPosition_clamped_witness :
    (0 : Int) < 100 ∧ (0 : Int) < 1000 ∧ (0 : Rat) ≤ 1/4 ∧
    (manualGridCoords paddingSampleGeom 0 0).1 < 0 ∧
    ((0 ≤ (getTokenGridPosition paddingSampleGeom none none 0 0).1 ∧
      0 ≤ (getTokenGridPosition paddingSampleGeom none none 0 0).2 ∧
      (getTokenGridPosition paddingSampleGeom none none 0 0).1 ≤ maxGridX paddingSampleGeom ∧
      (getTokenGridPosition paddingSampleGeom none none 0 0).2 ≤ maxGridY paddingSampleGeom) ∧
    ((manualGridCoords paddingSampleGeom 0 0).1 < 0 →
      (getTokenGridPosition paddingSampleGeom none none 0 0).1 = 0) ∧
    ((manualGridCoords paddingSampleGeom 0 0).2 < 0 →
      (getTokenGridPosition paddingSampleGeom none none 0 0).2 = 0)) := by
  have hman : manualGridCoords paddingSampleGeom 0 0 = (-3, -3) := by
    rw [manualGridCoords]
    simp only [paddingSampleGeom, Prod.mk.injEq]
    constructor <;> (rw [Int.floor_eq_iff]; constructor <;> norm_num)
  refine ⟨by decide, by decide, by norm_num, by rw [hman]; decide,
    getTokenGridPosition_clamped paddingSampleGeom none none 0 0 (by decide)
      (by decide) (by decide) (by norm_num [paddingSampleGeom])⟩

/-- C1: whenever the flush path (updateTokenElevation) writes an elevation,
the written target equals the maximum of the heights of all cells covered by
the token's footprint: it dominates every covered cell and is attained on
one of them. -/
theorem updateTokenElevation_target_is_max (m : HeightManager) (g : SceneGeom)
    (systemIsDnd5e : Bool) (v12Result offsetResult : Option (Int × Int))
    (t : TokenDoc) (newHeight : Int) (e : Event)
    (hupd : updateTokenElevation m g systemIsDnd5e v12Result offsetResult t =
      some (newHeight, e))
    (hcov : getTokenGridCoverage g v12Result offsetResult t ≠ []) :
    (∀ c ∈ getTokenGridCoverage g v12Result offsetResult t,
      getGridHeight m c.1 c.2 ≤ newHeight) ∧
    (∃ c ∈ getTokenGridCoverage g v12Result offsetResult t,
      getGridHeight m c.1 c.2 = newHeight) := by
  have hnew : newHeight = calculateMultiGridHeight m g v12Result offsetResult t := by
    simp only [updateTokenElevation] at hupd
    by_cases hskip : shouldSkipToken m systemIsDnd5e t = true
    · rw [if_pos hskip] at hupd
      exact absurd hupd (by simp)
    · rw [if_neg hskip] at hupd
      by_cases hne : t.elevation ≠ calculateMultiGridHeight m g v12Result offsetResult t
      · rw [if_pos hne] at hupd
        exact (congrArg Prod.fst (Option.some.inj hupd)).symm
      · rw [if_neg hne] at hupd
        exact absurd hupd (by simp)
  obtain ⟨c₀, cs, hcons⟩ := List.exists_cons_of_ne_nil hcov
  have hcalc : calculateMultiGridHeight m g v12Result offsetResult t =
      (cs.map (fun pos => getGridHeight m pos.1 pos.2)).foldl max
        (getGridHeight m c₀.1 c₀.2) := by
    rw [calculateMultiGridHeight, hcons, List.map_cons]
  rw [hnew, hcalc]
  constructor
  · intro c hc
    rw [hcons] at hc
    rcases List.mem_cons.mp hc with hhd | htl
    · subst hhd
      exact le_foldl_max_init _ _
    · exact mem_le_foldl_max _ _ _ (List.mem_map_of_mem _ htl)
  · rcases foldl_max_init_or_mem (cs.map (fun pos => getGridHeight m pos.1 pos.2))
        (getGridHeight m c₀.1 c₀.2) with h | h
    · exact ⟨c₀, by rw [hcons]; exact List.mem_cons_self c₀ cs, h.symm⟩
    · obtain ⟨c, hcmem, hceq⟩ := List.mem_map.mp h
      exact ⟨c, by rw [hcons]; exact List.mem_cons_of_mem c₀ hcmem, hceq⟩

/-- Witness for C1, the spec scenario: a 2 x 2 token over heights 3, 7, 1, 7
is flushed to elevation 7, the maximum (not the rounded average 5). -/
theorem updateTokenElevation_target_is_max_witness :
    updateTokenElevation maxSampleManager maxSampleGeom false none none
        maxSampleToken = some (7, Event.elevationUpdated "big" 0 7) ∧
    getTokenGridCoverage maxSampleGeom none none maxSampleToken ≠ [] ∧
    ((∀ c ∈ getTokenGridCoverage maxSampleGeom none none maxSampleToken,
        getGridHeight maxSampleManager c.1 c.2 ≤ 7) ∧
      (∃ c ∈ getTokenGridCoverage maxSampleGeom none none maxSampleToken,
        getGridHeight maxSampleManager c.1 c.2 = 7)) := by
  have hpad : paddingGrids maxSampleGeom.sceneWidth maxSampleGeom.padding
      maxSampleGeom.gridSize = 0 := by
    rw [paddingGrids]
    simp only [maxSampleGeom]
    norm_num
  have hmaxX : maxGridX maxSampleGeom = 9 := by
    rw [maxGridX, hpad]
    simp only [maxSampleGeom]
    norm_num
  have hmaxY : maxGridY maxSampleGeom = 9 := by
    rw [maxGridY]
    rw [show paddingGrids maxSampleGeom.sceneHeight maxSampleGeom.padding
        maxSampleGeom.gridSize = 0 from hpad]
    simp only [maxSampleGeom]
    norm_num
  have hman : manualGridCoords maxSampleGeom maxSampleToken.x maxSampleToken.y
      = (0, 0) := by
    rw [manualGridCoords]
    simp only [maxSampleGeom, maxSampleToken, Prod.mk.injEq]
    constructor <;> (rw [Int.floor_eq_iff]; constructor <;> norm_num)
  have hpos : getTokenGridPosition maxSampleGeom none none maxSampleToken.x
      maxSampleToken.y = (0, 0) := by
    rw [getTokenGridPosition]
    simp only [chooseGridCoords, hman, hmaxX, hmaxY]
    decide
  have hcover : getTokenGridCoverage maxSampleGeom none none maxSampleToken =
      [(0, 0), (0, 1), (1, 0), (1, 1)] := by
    rw [getTokenGridCoverage, hpos]
    decide
  have hcalc : calculateMultiGridHeight maxSampleManager maxSampleGeom none none
      maxSampleToken = 7 := by
    rw [calculateMultiGridHeight, hcover]
    decide
  have hskip : shouldSkipToken maxSampleManager false maxSampleToken = false := by
    decide
  have hupd : updateTokenElevation maxSampleManager maxSampleGeom false none none
      maxSampleToken = some (7, Event.elevationUpdated "big" 0 7) := by
    rw [updateTokenElevation, if_neg (by rw [hskip]; decide), hcalc]
    decide
  have hcov : getTokenGridCoverage maxSampleGeom none none maxSampleToken ≠ [] := by
    rw [hcover]
    decide
  exact ⟨hupd, hcov,
    updateTokenElevation_target_is_max maxSampleManager maxSampleGeom false none
      none maxSampleToken 7 (Event.elevationUpdated "big" 0 7) hupd hcov⟩

/-- C9: a token whose id is in the exception set is never elevation-updated
by any synchronization path: the skip check answers true whatever the flying
attributes say, the flush path writes nothing and fires no event, and neither
the update-all walk nor the area-update collection ever processes an
exception-listed id. -/
theorem exceptionToken_never_synced (m : HeightManager) (g : SceneGeom)
    (systemIsDnd5e : Bool) (v12Result offsetResult : Option (Int × Int))
    (t : TokenDoc) (tokens : List TokenDoc) (gridPositions : List (Int × Int))
    (hmem : isExceptionToken m t.id = true) :
    shouldSkipToken m systemIsDnd5e t = true ∧
    updateTokenElevation m g systemIsDnd5e v12Result offsetResult t = none ∧
    (∀ u ∈ updateAllTokens m g systemIsDnd5e v12Result offsetResult tokens,
      isExceptionToken m u.1 = false) ∧
    (∀ u ∈ areaAffectedTokens m g systemIsDnd5e v12Result offsetResult tokens
        gridPositions,
      isExceptionToken m u.id = false) := by
  refine ⟨?_, ?_, ?_, ?_⟩
  · rw [shouldSkipToken, if_pos hmem]
  · rw [updateTokenElevation, shouldSkipToken, if_pos hmem]
    simp
  · exact updateAllTokens_no_exception m g systemIsDnd5e v12Result offsetResult tokens
  · exact areaAffectedTokens_no_exception m g systemIsDnd5e v12Result offsetResult
      tokens gridPositions

/-- Witness for C9: the exception-listed, non-flying token bird is skipped by
every synchronization path even though the height under it differs from its
elevation. -/
theorem exceptionToken_never_synced_witness :
    isExceptionToken exceptionSampleManager "bird" = true ∧
    (shouldSkipToken exceptionSampleManager false exceptionSampleToken = true ∧
      updateTokenElevation exceptionSampleManager maxSampleGeom false none none
        exceptionSampleToken = none ∧
      (∀ u ∈ updateAllTokens exceptionSampleManager maxSampleGeom false none none
          [exceptionSampleToken],
        isExceptionToken exceptionSampleManager u.1 = false) ∧
      (∀ u ∈ areaAffectedTokens exceptionSampleManager maxSampleGeom false none
          none [exceptionSampleToken] [(0, 0)],
        isExceptionToken exceptionSampleManager u.id = false)) :=
  ⟨by decide,
    exceptionToken_never_synced exceptionSampleManager maxSampleGeom false none
      none exceptionSampleToken [exceptionSampleToken] [(0, 0)] (by decide)⟩

/-- An inverted integer range is empty. -/
theorem intRange_eq_nil (a b : Int) (h : b < a) : intRange a b = [] := by
  rw [intRange]
  rw [show (b + 1 - a).toNat = 0 by omega]
  simp

/-- An inverted viewport window renders nothing. -/
theorem renderedCells_of_empty (vb : ViewportBounds) (h : vb.right < vb.left) :
    renderedCells vb = [] := by
  rw [renderedCells, intRange_eq_nil _ _ h]
  simp

/-- C10: every recomputed viewport window is clamped into the addressable
range — per axis at least minus the padding cell count, at most the map
extent in cells plus the padding cell count minus one — and a degenerate
window (left past right, camera far outside) makes the render loop visit
zero cells rather than fail. -/
theorem updateViewport_clamped (g : SceneGeom) (tx ty scale screenW screenH : Rat) :
    -(paddingGrids g.sceneWidth g.padding g.gridSize) ≤
      (updateViewport g tx ty scale screenW screenH).left ∧
    -(paddingGrids g.sceneHeight g.padding g.gridSize) ≤
      (updateViewport g tx ty scale screenW screenH).top ∧
    (updateViewport g tx ty scale screenW screenH).right ≤
      ⌈(g.sceneWidth : Rat) / (g.gridSize : Rat)⌉ +
        paddingGrids g.sceneWidth g.padding g.gridSize - 1 ∧
    (updateViewport g tx ty scale screenW screenH).bottom ≤
      ⌈(g.sceneHeight : Rat) / (g.gridSize : Rat)⌉ +
        paddingGrids g.sceneHeight g.padding g.gridSize - 1 ∧
    ((updateViewport g tx ty scale screenW screenH).right <
        (updateViewport g tx ty scale screenW screenH).left →
      renderedCells (updateViewport g tx ty scale screenW screenH) = []) := by
  refine ⟨?_, ?_, ?_, ?_, ?_⟩
  · rw [updateViewport]
    exact le_max_left _ _
  · rw [updateViewport]
    exact le_max_left _ _
  · rw [updateViewport]
    exact min_le_left _ _
  · rw [updateViewport]
    exact min_le_left _ _
  · intro h
    exact renderedCells_of_empty _ h

/-- Witness for C10: with the padded 1000 x 1000 scene and the camera panned
a million pixels away, the clamped window is inverted (left 9996 past right
12) and the render loop visits zero cells. -/
theorem updateViewport_clamped_witness :
    updateViewport paddingSampleGeom (-1000000) (-1000000) 1 800 600 =
      ⟨9996, 9996, 12, 12⟩ ∧
    renderedCells (updateViewport paddingSampleGeom (-1000000) (-1000000) 1 800 600)
      = [] ∧
    (-(paddingGrids paddingSampleGeom.sceneWidth paddingSampleGeom.padding
        paddingSampleGeom.gridSize) ≤
      (updateViewport paddingSampleGeom (-1000000) (-1000000) 1 800 600).left) := by
  have hpw : paddingGrids 1000 (1/4) 100 = 3 := by
    rw [paddingGrids]
    rw [Int.ceil_eq_iff]
    constructor <;> norm_num
  have hvb : updateViewport paddingSampleGeom (-1000000) (-1000000) 1 800 600 =
      ⟨9996, 9996, 12, 12⟩ := by
    rw [updateViewport]
    simp only [paddingSampleGeom, hpw, ViewportBounds.mk.injEq]
    norm_num [Int.floor_eq_iff, Int.ceil_eq_iff]
  refine ⟨hvb, ?_, ?_⟩
  · rw [hvb]
    exact renderedCells_of_empty _ (by decide)
  · exact (updateViewport_clamped paddingSampleGeom (-1000000) (-1000000) 1 800 600).1

/-- C2: for every integer cell (x, y) and every geometry recomputed by
updateGridParameters with positive cell size, converting the cell to its
top-left pixel and mapping that pixel back through toCell returns exactly
(x, y). -/
theorem toCell_leftInverse_toCellTopLeftPixel (sceneWidth sceneHeight : Int)
    (padding : Rat) (gridSize : Int) (hs : 0 < gridSize) (x y : Int) :
    toCell (updateGridParameters sceneWidth sceneHeight padding gridSize)
      (((toCellTopLeftPixel
          (updateGridParameters sceneWidth sceneHeight padding gridSize) x y).1 : Rat))
      (((toCellTopLeftPixel
          (updateGridParameters sceneWidth sceneHeight padding gridSize) x y).2 : Rat))
      = (x, y) := by
  unfold toCell toCellTopLeftPixel updateGridParameters
  simp only [Prod.mk.injEq]
  constructor
  · exact floor_cell_cancel gridSize _ hs x
  · exact floor_cell_cancel gridSize _ hs y

/-- Witness for C2 at a concrete geometry: scene 1000 x 1000, padding 1/4,
cell size 100, cell (5, -2). -/
theorem toCell_leftInverse_toCellTopLeftPixel_witness :
    (0 : Int) < 100 ∧
    toCell (updateGridParameters 1000 1000 (1/4) 100)
      (((toCellTopLeftPixel (updateGridParameters 1000 1000 (1/4) 100) 5 (-2)).1 : Rat))
      (((toCellTopLeftPixel (updateGridParameters 1000 1000 (1/4) 100) 5 (-2)).2 : Rat))
      = (5, -2) :=
  ⟨by decide,
   toCell_leftInverse_toCellTopLeftPixel 1000 1000 (1/4) 100 (by decide) 5 (-2)⟩

end MapHeight
